import Mathlib

/-!
Verification of the emergency SOS server (src/server.js) against its
natural-language specification.  The JavaScript source is shallowly embedded:
each route handler becomes a pure Lean function over an explicit database
state, the Twilio client becomes an abstract provider function inside an
environment record, and JavaScript truthiness checks are modelled explicitly.
Coordinates are modelled as integers: only their presence and zero-ness
matter to the claims (JavaScript falsiness of the number 0).
-/

namespace SosServer

/-- Uppercase base-36 digit characters, as produced by
JavaScript Number.toString(36) followed by toUpperCase(). -/
def base36Char (d : Nat) : Char :=
  if d < 10 then Char.ofNat (48 + d)        -- digits 0-9
  else Char.ofNat (65 + (d - 10))           -- letters A-Z

/-- Base-36 digit loop, least significant digit first; `fuel` bounds the
number of divisions and always suffices when `n < fuel`. -/
def toBase36RevGo : Nat → Nat → List Char
  | 0, _ => []
  | fuel + 1, n =>
    if n < 36 then [base36Char n]
    else base36Char (n % 36) :: toBase36RevGo fuel (n / 36)

/-- Base-36 representation of a natural number, least significant digit
first (uppercase characters). -/
def toBase36Rev (n : Nat) : List Char := toBase36RevGo (n + 1) n

/-- Base-36 representation (most significant digit first), mirroring
`Date.now().toString(36).toUpperCase()` on a natural number. -/
def toBase36 (n : Nat) : List Char := (toBase36Rev n).reverse

/-- `generateTrackId` from server.js lines 105-110.
`now` is the millisecond clock value `Date.now()`; `randDigits` is the
fractional base-36 digit sequence that `Math.random().toString(36)` prints
after the leading "0." (the empty list when `Math.random()` returns 0);
`substring(2, 7)` keeps at most the first five of those digits. -/
def generateTrackId (now : Nat) (randDigits : List (Fin 36)) : String :=
  let timestamp := String.mk (toBase36 now)
  let random := String.mk ((randDigits.take 5).map (fun d => base36Char d.val))
  "EMERGENCY" ++ "-" ++ timestamp ++ "-" ++ random

/-- Keep only decimal digit characters, as `phone.replace(/\D/g, "")`. -/
def stripNonDigits (s : String) : String :=
  String.mk (s.data.filter Char.isDigit)

/-- JavaScript `s.startsWith(p)` on the character sequences of the two
strings. -/
def jsStartsWith (s p : String) : Bool :=
  p.data.isPrefixOf s.data

/-- `formatWhatsAppNumber` from server.js lines 113-123: strip non-digits,
then prepend the country code "91" when the cleaned number does not already
start with "91" and is exactly 10 digits long. -/
def formatWhatsAppNumber (phone : String) : String :=
  let cleaned := stripNonDigits phone
  let cleaned :=
    if !(jsStartsWith cleaned "91") && cleaned.length == 10
    then "91" ++ cleaned else cleaned
  "whatsapp:+" ++ cleaned

/-- Result of one call to the external Twilio provider
(`twilioClient.messages.create`): either a message sid, or a thrown error
captured by its message text. -/
inductive ProviderResult where
  | success (sid : String)
  | failure (err : String)
deriving Repr, DecidableEq

/-- Process-level environment: the Twilio configuration flag fixed at
startup, the provider behaviour, and the locale rendering of timestamps
(`new Date().toLocaleString()`). -/
structure Env where
  isTwilioConfigured : Bool
  provider : String → String → ProviderResult
  toLocaleString : Nat → String

/-- Outcome of `sendWhatsAppMessage`: status string plus optional sid and
error, exactly the object literals returned in server.js lines 126-164. -/
structure Outcome where
  status : String
  sid : Option String
  error : Option String
deriving Repr, DecidableEq

/-- `sendWhatsAppMessage` from server.js lines 126-164.  Unconfigured:
a simulated outcome with a local pseudo-sid and no network call.
Configured: format the number, invoke the provider; a provider success
yields status "sent" with the sid, a provider throw is caught and yields
status "failed" with the error text.  The function is total: no provider
failure escapes it. -/
def sendWhatsAppMessage (env : Env) (now : Nat) (recipient msg : String) : Outcome :=
  if !env.isTwilioConfigured then
    { status := "simulated", sid := some ("SIM" ++ toString now), error := none }
  else
    match env.provider (formatWhatsAppNumber recipient) msg with
    | .success sid => { status := "sent", sid := some sid, error := none }
    | .failure err => { status := "failed", sid := none, error := some err }

/-- Embedded contact sub-document of the EmergencyContact schema
(server.js lines 53-63). -/
structure Contact where
  name : String
  phone : String
  relationship : Option String
  isPrimary : Bool
deriving Repr, DecidableEq

/-- An EmergencyContact document: one contact list per user id. -/
structure ContactDoc where
  userId : String
  contacts : List Contact
  createdAt : Nat
  updatedAt : Nat
deriving Repr, DecidableEq

/-- The status enum of the EmergencyAlert schema (server.js lines 79-83):
every stored alert carries one of exactly these two values. -/
inductive AlertStatus where
  | active
  | resolved
deriving Repr, DecidableEq, BEq

/-- Embedded delivery sub-document pushed into `contactsNotified`
(server.js lines 84-91 and 307-314). -/
structure DeliveryRecord where
  name : String
  phone : String
  deliveryStatus : String
  messageSid : Option String
  sentAt : Nat
  error : Option String
deriving Repr, DecidableEq

/-- An EmergencyAlert document (server.js lines 66-95).  `id` is the
store-assigned `_id`; coordinates are integers (see the file comment). -/
structure Alert where
  id : Nat
  userId : String
  trackId : String
  lat : Int
  lng : Int
  message : String
  alertType : String
  status : AlertStatus
  contactsNotified : List DeliveryRecord
  userName : String
  resolvedAt : Option Nat
  createdAt : Nat
deriving Repr, DecidableEq

/-- The MongoDB state: both collections plus the next store-assigned id. -/
structure DB where
  contactDocs : List ContactDoc
  alerts : List Alert
  nextId : Nat
deriving Repr, DecidableEq

/-- `alert.save()` under the unique index on `trackId` (server.js line 68):
a duplicate tracking code raises a duplicate-key error instead of
overwriting; otherwise the alert is appended with a fresh `_id`. -/
def saveAlert (db : DB) (a : Alert) : Except String DB :=
  if db.alerts.any (fun x => x.trackId == a.trackId) then
    .error "E11000 duplicate key error"
  else
    .ok { db with alerts := db.alerts ++ [{ a with id := db.nextId }],
                  nextId := db.nextId + 1 }

/-- JavaScript `x || d` on an optional string field: undefined and the
empty string are falsy and fall back to the default. -/
def orDefault (x : Option String) (d : String) : String :=
  match x with
  | none => d
  | some s => if s == "" then d else s

/-- The `alertMessage` template of server.js lines 278-297, after
`.trim()`.  `atype` is the raw `alertType` string whose `toUpperCase()`
the code takes; `timeStr` renders `new Date().toLocaleString()`. -/
def composeAlertMessage (userName : Option String) (mapsLink atype : String)
    (message : Option String) (trackId timeStr : String) : String :=
  "🚨 *EMERGENCY ALERT* 🚨\n\n"
  ++ orDefault userName "Someone" ++ " has triggered an emergency SOS!\n\n"
  ++ "📍 *Location:* \n" ++ mapsLink ++ "\n\n"
  ++ "📋 *Alert Type:* " ++ atype.toUpper ++ "\n\n"
  ++ "💬 *Message:* " ++ orDefault message "Emergency assistance needed!" ++ "\n\n"
  ++ "🆔 *Tracking ID:* " ++ trackId ++ "\n\n"
  ++ "⏰ *Time:* " ++ timeStr ++ "\n\n"
  ++ "Please check on them immediately or contact emergency services if needed.\n\n"
  ++ "This is an automated emergency alert."

/-- The `resolutionMessage` template of server.js lines 437-445, after
`.trim()`. -/
def composeResolutionMessage (trackId timeStr : String) : String :=
  "✅ *EMERGENCY RESOLVED*\n\n"
  ++ "The emergency alert (ID: " ++ trackId ++ ") has been marked as resolved.\n\n"
  ++ "⏰ *Resolved at:* " ++ timeStr ++ "\n\n"
  ++ "Thank you for your quick response!"

/-- Aggregate result of the per-contact send loop of server.js
lines 300-324: the delivery records in contact-list order, the two
counters, and the list of `sendWhatsAppMessage` invocations performed
(recipient phone and message body). -/
structure DispatchResult where
  records : List DeliveryRecord
  sentCount : Nat
  failedCount : Nat
  calls : List (String × String)
deriving Repr, DecidableEq

/-- The dispatch loop of server.js lines 304-324: sequentially, in list
order, send to each contact, push a delivery record, and classify the
outcome ("sent" or "simulated" increments sentCount, anything else
increments failedCount).  The 1-second pacing delay has no observable
effect in this model. -/
def dispatchLoop (env : Env) (now : Nat) (msg : String) :
    List Contact → DispatchResult
  | [] => ⟨[], 0, 0, []⟩
  | c :: rest =>
    let result := sendWhatsAppMessage env now c.phone msg
    let entry : DeliveryRecord :=
      { name := c.name, phone := c.phone, deliveryStatus := result.status,
        messageSid := result.sid, sentAt := now, error := result.error }
    let r := dispatchLoop env now msg rest
    { records := entry :: r.records,
      sentCount := if result.status == "sent" || result.status == "simulated"
                   then r.sentCount + 1 else r.sentCount,
      failedCount := if result.status == "sent" || result.status == "simulated"
                     then r.failedCount else r.failedCount + 1,
      calls := (c.phone, msg) :: r.calls }

/-- The `location` object of a POST /api/emergency/sos body; each
coordinate may be absent (undefined). -/
structure SosLocation where
  lat : Option Int
  lng : Option Int
deriving Repr, DecidableEq

/-- A POST /api/emergency/sos request body; absent JSON fields are
`none`. -/
structure SosRequest where
  userId : Option String
  location : Option SosLocation
  message : Option String
  alertType : Option String
  userName : Option String
deriving Repr, DecidableEq

/-- HTTP response of the SOS route: 400, 500, or the 200 payload of
server.js lines 340-351. -/
inductive SosResponse where
  | badRequest (error : String)
  | serverError (error : String)
  | ok (trackId : String) (twilioConfigured : Bool) (sent failed total : Nat)
       (mapsLink : String)
deriving Repr, DecidableEq

/-- Full observable effect of one SOS request: the response, the database
afterwards, and the `sendWhatsAppMessage` calls performed. -/
structure SosOutcome where
  response : SosResponse
  db : DB
  sends : List (String × String)
deriving Repr, DecidableEq

/-- The POST /api/emergency/sos handler, server.js lines 250-359.
Validation uses JavaScript truthiness: a missing or empty `userId`, a
missing `location`, or a missing or zero coordinate all fail the
`!userId || !location || !location.lat || !location.lng` check.  A request
whose `alertType` is absent reaches `alertType.toUpperCase()` with
`undefined`, throws, and is caught by the outer handler as a 500 before
any send.  A duplicate-key error from `alert.save()` is likewise caught as
a 500, after the sends have already happened. -/
def sosHandler (env : Env) (now : Nat) (randDigits : List (Fin 36))
    (db : DB) (req : SosRequest) : SosOutcome :=
  match req.userId, req.location with
  | some uid, some loc =>
    match loc.lat, loc.lng with
    | some lat, some lng =>
      if uid == "" || lat == 0 || lng == 0 then
        ⟨.badRequest "Invalid request. userId and location required.", db, []⟩
      else
        match db.contactDocs.find? (fun d => d.userId == uid) with
        | none =>
          ⟨.badRequest "No emergency contacts found. Please add contacts first.",
           db, []⟩
        | some cd =>
          if cd.contacts.length == 0 then
            ⟨.badRequest "No emergency contacts found. Please add contacts first.",
             db, []⟩
          else
            let trackId := generateTrackId now randDigits
            let mapsLink :=
              "https://www.google.com/maps?q=" ++ toString lat ++ "," ++ toString lng
            match req.alertType with
            | none => ⟨.serverError "Failed to send emergency alert", db, []⟩
            | some atype =>
              let alertMessage :=
                composeAlertMessage req.userName mapsLink atype req.message
                  trackId (env.toLocaleString now)
              let r := dispatchLoop env now alertMessage cd.contacts
              let alert : Alert :=
                { id := 0, userId := uid, trackId := trackId, lat := lat, lng := lng,
                  message := orDefault req.message "Emergency SOS Alert",
                  alertType := orDefault req.alertType "sos",
                  status := .active, contactsNotified := r.records,
                  userName := orDefault req.userName "User",
                  resolvedAt := none, createdAt := now }
              match saveAlert db alert with
              | .error _ =>
                ⟨.serverError "Failed to send emergency alert", db, r.calls⟩
              | .ok db2 =>
                ⟨.ok trackId env.isTwilioConfigured r.sentCount r.failedCount
                   cd.contacts.length mapsLink, db2, r.calls⟩
    | _, _ => ⟨.badRequest "Invalid request. userId and location required.", db, []⟩
  | _, _ => ⟨.badRequest "Invalid request. userId and location required.", db, []⟩

/-- HTTP response of the resolve route: 404 or the 200 payload carrying
the updated alert. -/
inductive ResolveResponse where
  | notFound
  | ok (alert : Alert)
deriving Repr, DecidableEq

/-- Full observable effect of one resolve request. -/
structure ResolveOutcome where
  response : ResolveResponse
  db : DB
  sends : List (String × String)
deriving Repr, DecidableEq

/-- The POST /api/emergency/resolve/:alertId handler, server.js
lines 412-466.  `findByIdAndUpdate` unconditionally sets
`status = resolved` and `resolvedAt = now` and returns the updated
document; then, only when Twilio is configured, the current contact list
of the alert owner is looked up live and the resolution message is sent
to the contacts flagged `isPrimary`. -/
def resolveHandler (env : Env) (now : Nat) (db : DB) (alertId : Nat) :
    ResolveOutcome :=
  match db.alerts.find? (fun x => x.id == alertId) with
  | none => ⟨.notFound, db, []⟩
  | some a =>
    let a2 := { a with status := .resolved, resolvedAt := some now }
    let updated := db.alerts.map (fun x =>
      if x.id == alertId
      then { x with status := .resolved, resolvedAt := some now }
      else x)
    let db2 := { db with alerts := updated }
    let sends :=
      if env.isTwilioConfigured then
        match db.contactDocs.find? (fun d => d.userId == a2.userId) with
        | some cd =>
          if cd.contacts.length > 0 then
            (cd.contacts.filter (fun c => c.isPrimary)).map
              (fun c => (c.phone,
                composeResolutionMessage a2.trackId (env.toLocaleString now)))
          else []
        | none => []
      else []
    ⟨.ok a2, db2, sends⟩

/-- The 200 payload of GET /api/emergency/stats/:userId, server.js
lines 480-488. -/
structure Stats where
  totalAlerts : Nat
  activeAlerts : Nat
  resolvedAlerts : Nat
  emergencyContacts : Nat
deriving Repr, DecidableEq

/-- The GET /api/emergency/stats/:userId handler, server.js
lines 469-496: three `countDocuments` filters plus the contact-list
size. -/
def statsHandler (db : DB) (uid : String) : Stats :=
  { totalAlerts := (db.alerts.filter (fun a => a.userId == uid)).length,
    activeAlerts := (db.alerts.filter
      (fun a => a.userId == uid && a.status == .active)).length,
    resolvedAlerts := (db.alerts.filter
      (fun a => a.userId == uid && a.status == .resolved)).length,
    emergencyContacts :=
      match db.contactDocs.find? (fun d => d.userId == uid) with
      | some cd => cd.contacts.length
      | none => 0 }

/-! ### Spec-side predicate and concrete fixtures -/

/-- Uppercase base-36 character class, the `[A-Z0-9]` of the spec. -/
def isBase36Upper (c : Char) : Bool :=
  c.isDigit || (65 ≤ c.toNat && c.toNat ≤ 90)

/-- Split a character sequence at every dash. -/
def splitOnDash : List Char → List (List Char)
  | [] => [[]]
  | c :: rest =>
    match splitOnDash rest with
    | [] => [[c]]
    | h :: t => if c == '-' then [] :: h :: t else (c :: h) :: t

/-- The tracking-code pattern stated by the spec: the literal piece
`EMERGENCY`, a dash, a nonempty base-36 piece, a dash, and exactly five
base-36 characters (the class `[A-Z0-9]` contains no dash, so the three
pieces are the dash-separated segments). -/
def matchesTrackPattern (s : String) : Bool :=
  match splitOnDash s.data with
  | [p, t, r] =>
    (p == "EMERGENCY".data) && decide (0 < t.length) && t.all isBase36Upper
      && (r.length == 5) && r.all isBase36Upper
  | _ => false

/-- Simulated-mode environment: Twilio credentials absent. -/
def envSim : Env :=
  { isTwilioConfigured := false,
    provider := fun _ _ => .failure "unreachable",
    toLocaleString := fun _ => "T" }

/-- Configured environment whose provider succeeds and echoes the exact
recipient string it was invoked with as the message sid. -/
def envCfg : Env :=
  { isTwilioConfigured := true,
    provider := fun recipient _ => .success recipient,
    toLocaleString := fun _ => "T" }

/-- Configured environment whose provider always throws. -/
def envFail : Env :=
  { isTwilioConfigured := true,
    provider := fun _ _ => .failure "boom",
    toLocaleString := fun _ => "T" }

/-- The primary contact of the spec example for owner u1. -/
def ann : Contact := { name := "Ann", phone := "9876543210",
                       relationship := none, isPrimary := true }

/-- The non-primary contact of the spec example for owner u1. -/
def bob : Contact := { name := "Bob", phone := "9123456780",
                       relationship := none, isPrimary := false }

/-- Contact list of owner u1 in the spec example. -/
def cdocU1 : ContactDoc := { userId := "u1", contacts := [ann, bob],
                             createdAt := 0, updatedAt := 0 }

/-- An active alert of owner u1, as created by a previous SOS trigger. -/
def alert1 : Alert :=
  { id := 1, userId := "u1", trackId := "EMERGENCY-RS-I", lat := 12, lng := 77,
    message := "m", alertType := "sos", status := .active, contactsNotified := [],
    userName := "U", resolvedAt := none, createdAt := 0 }

/-- Database holding the u1 contact list and one active alert. -/
def db0 : DB := { contactDocs := [cdocU1], alerts := [alert1], nextId := 2 }

/-- Database in which owner u2 has a contact document with an empty
contacts array. -/
def dbEmpty : DB :=
  { contactDocs := [{ userId := "u2", contacts := [], createdAt := 0,
                      updatedAt := 0 }],
    alerts := [], nextId := 0 }

/-- A well-formed SOS request body for owner u1. -/
def reqOk : SosRequest :=
  { userId := some "u1", location := some { lat := some 12, lng := some 77 },
    message := none, alertType := some "sos", userName := none }

/-! ### Helper lemmas -/

/-- Every outcome of `sendWhatsAppMessage` carries one of the three
delivery statuses. -/
theorem sendStatus_cases (env : Env) (now : Nat) (r m : String) :
    ((sendWhatsAppMessage env now r m).status == "sent"
      || (sendWhatsAppMessage env now r m).status == "simulated"
      || (sendWhatsAppMessage env now r m).status == "failed") = true := by
  unfold sendWhatsAppMessage
  by_cases h : env.isTwilioConfigured
  · simp only [h]
    cases env.provider (formatWhatsAppNumber r) m <;> simp
  · simp [h]

/-- The dispatch loop emits one delivery record per contact. -/
theorem dispatchLoop_records_length (env : Env) (now : Nat) (msg : String)
    (contacts : List Contact) :
    (dispatchLoop env now msg contacts).records.length = contacts.length := by
  induction contacts with
  | nil => rfl
  | cons c rest ih => simp [dispatchLoop, ih]

/-- The delivery records keep the contact names and phones in list
order. -/
theorem dispatchLoop_records_order (env : Env) (now : Nat) (msg : String)
    (contacts : List Contact) :
    (dispatchLoop env now msg contacts).records.map (fun e => (e.name, e.phone))
      = contacts.map (fun c => (c.name, c.phone)) := by
  induction contacts with
  | nil => rfl
  | cons c rest ih => simp [dispatchLoop, ih]

/-- Every delivery record of the dispatch loop has one of the three
statuses. -/
theorem dispatchLoop_records_status (env : Env) (now : Nat) (msg : String)
    (contacts : List Contact) :
    (dispatchLoop env now msg contacts).records.all
      (fun e => e.deliveryStatus == "sent" || e.deliveryStatus == "simulated"
        || e.deliveryStatus == "failed") = true := by
  induction contacts with
  | nil => rfl
  | cons c rest ih =>
    simp only [dispatchLoop, List.all_cons, Bool.and_eq_true]
    exact ⟨sendStatus_cases env now c.phone msg, ih⟩

/-- sentCount counts exactly the records whose status is sent or
simulated. -/
theorem dispatchLoop_sentCount (env : Env) (now : Nat) (msg : String)
    (contacts : List Contact) :
    (dispatchLoop env now msg contacts).sentCount
      = ((dispatchLoop env now msg contacts).records.filter
          (fun e => e.deliveryStatus == "sent"
            || e.deliveryStatus == "simulated")).length := by
  induction contacts with
  | nil => rfl
  | cons c rest ih =>
    by_cases hs : ((sendWhatsAppMessage env now c.phone msg).status == "sent"
        || (sendWhatsAppMessage env now c.phone msg).status == "simulated") = true
    · simp [dispatchLoop, List.filter, hs, ih]
    · simp [dispatchLoop, List.filter, hs, ih]

/-- failedCount counts exactly the records whose status is neither sent
nor simulated. -/
theorem dispatchLoop_failedCount (env : Env) (now : Nat) (msg : String)
    (contacts : List Contact) :
    (dispatchLoop env now msg contacts).failedCount
      = ((dispatchLoop env now msg contacts).records.filter
          (fun e => !(e.deliveryStatus == "sent"
            || e.deliveryStatus == "simulated"))).length := by
  induction contacts with
  | nil => rfl
  | cons c rest ih =>
    by_cases hs : ((sendWhatsAppMessage env now c.phone msg).status == "sent"
        || (sendWhatsAppMessage env now c.phone msg).status == "simulated") = true
    · simp [dispatchLoop, List.filter, hs, ih]
    · simp [dispatchLoop, List.filter, hs, ih]

/-- The two counters of the dispatch loop sum to the contact count. -/
theorem dispatchLoop_counts_total (env : Env) (now : Nat) (msg : String)
    (contacts : List Contact) :
    (dispatchLoop env now msg contacts).sentCount
      + (dispatchLoop env now msg contacts).failedCount = contacts.length := by
  induction contacts with
  | nil => rfl
  | cons c rest ih =>
    by_cases hs : ((sendWhatsAppMessage env now c.phone msg).status == "sent"
        || (sendWhatsAppMessage env now c.phone msg).status == "simulated") = true
    · simp [dispatchLoop, hs]; omega
    · simp [dispatchLoop, hs]; omega

/-- The dispatch loop attempts one send per contact, in order. -/
theorem dispatchLoop_calls (env : Env) (now : Nat) (msg : String)
    (contacts : List Contact) :
    (dispatchLoop env now msg contacts).calls.map Prod.fst
      = contacts.map (fun c => c.phone) := by
  induction contacts with
  | nil => rfl
  | cons c rest ih => simp [dispatchLoop, ih]

/-- Updating the alert matched by id inside a list commutes with looking
it up: the lookup afterwards returns the updated first match. -/
theorem find?_map_resolve (l : List Alert) (aid : Nat) (t : Nat) (a : Alert)
    (h : l.find? (fun x => x.id == aid) = some a) :
    (l.map (fun x => if x.id == aid
        then { x with status := .resolved, resolvedAt := some t } else x)).find?
      (fun x => x.id == aid)
      = some { a with status := .resolved, resolvedAt := some t } := by
  induction l with
  | nil => simp at h
  | cons hd tl ih =>
    by_cases hid : (hd.id == aid) = true
    · simp only [List.find?_cons, hid] at h
      cases h
      have ha : a.id = aid := by simpa using hid
      simp [List.find?_cons, ha]
    · rw [Bool.not_eq_true] at hid
      simp only [List.find?_cons, hid] at h
      simp only [List.map_cons, hid, Bool.false_eq_true, if_false,
        List.find?_cons]
      exact ih h

/-- Boolean equality on the status enum computes on constructors. -/
theorem alertStatus_beq_aa : (AlertStatus.active == AlertStatus.active) = true := rfl

/-- Boolean equality on the status enum computes on constructors. -/
theorem alertStatus_beq_ar : (AlertStatus.active == AlertStatus.resolved) = false := rfl

/-- Boolean equality on the status enum computes on constructors. -/
theorem alertStatus_beq_ra : (AlertStatus.resolved == AlertStatus.active) = false := rfl

/-- Boolean equality on the status enum computes on constructors. -/
theorem alertStatus_beq_rr : (AlertStatus.resolved == AlertStatus.resolved) = true := rfl

/-- Splitting a filtered count by the two-valued status enum. -/
theorem filter_status_partition (uid : String) (l : List Alert) :
    (l.filter (fun a => a.userId == uid)).length
      = (l.filter (fun a => a.userId == uid && a.status == .active)).length
        + (l.filter (fun a => a.userId == uid && a.status == .resolved)).length := by
  induction l with
  | nil => rfl
  | cons a l ih =>
    by_cases hu : (a.userId == uid) = true
    · cases hst : a.status <;>
        simp [List.filter, hu, hst, ih, alertStatus_beq_aa, alertStatus_beq_ar,
          alertStatus_beq_ra, alertStatus_beq_rr] <;>
        omega
    · simp [List.filter, hu, ih]

/-- Every base-36 digit maps to a character in the class `[A-Z0-9]`. -/
theorem base36Char_valid : ∀ d : Fin 36, isBase36Upper (base36Char d.val) = true := by
  decide

/-- With positive fuel the digit loop is never empty. -/
theorem toBase36RevGo_ne_nil (fuel n : Nat) (h : n < fuel) :
    toBase36RevGo fuel n ≠ [] := by
  cases fuel with
  | zero => omega
  | succ fuel =>
    unfold toBase36RevGo
    split <;> simp

/-- With sufficient fuel every emitted character is in `[A-Z0-9]`. -/
theorem toBase36RevGo_valid (fuel : Nat) :
    ∀ n, n < fuel → (toBase36RevGo fuel n).all isBase36Upper = true := by
  induction fuel with
  | zero => intro n h; omega
  | succ fuel ih =>
    intro n h
    unfold toBase36RevGo
    by_cases h36 : n < 36
    · rw [if_pos h36]
      have h1 : isBase36Upper (base36Char n) = true := base36Char_valid ⟨n, h36⟩
      simp [h1]
    · rw [if_neg h36]
      have h1 : isBase36Upper (base36Char (n % 36)) = true :=
        base36Char_valid ⟨n % 36, Nat.mod_lt _ (by omega)⟩
      have hdiv : n / 36 < fuel := by
        have h2 : n / 36 < n := Nat.div_lt_self (by omega) (by omega)
        omega
      simp [h1, ih _ hdiv]

/-- The base-36 representation is never empty. -/
theorem toBase36Rev_ne_nil (n : Nat) : toBase36Rev n ≠ [] :=
  toBase36RevGo_ne_nil (n + 1) n (by omega)

/-- Every character of the base-36 representation is in `[A-Z0-9]`. -/
theorem toBase36Rev_valid (n : Nat) :
    (toBase36Rev n).all isBase36Upper = true :=
  toBase36RevGo_valid (n + 1) n (by omega)

/-! ### Claim theorems -/

/-- Claim C1, counterexample: the claim asserts that resolving an existing
Alert notifies exactly the primary contacts regardless of whether the
provider is configured or simulated.  In simulated mode the whole
resolution-notification block is skipped: resolving the Alert of owner u1,
whose current contact list flags Ann (and only Ann) as primary, performs
zero sends instead of exactly one to Ann. -/
theorem resolve_simulated_sends_nothing :
    (resolveHandler envSim 5 db0 1).response
      = .ok { alert1 with status := .resolved, resolvedAt := some 5 } ∧
    (resolveHandler envSim 5 db0 1).sends = [] ∧
    cdocU1.contacts.filter (fun c => c.isPrimary) = [ann] :=
  ⟨rfl, rfl, rfl⟩

/-- Claim C1, amended: when the provider is configured, resolving an
existing Alert dispatches the resolution message exactly to the contacts
flagged isPrimary in the owner current ContactList (a live lookup), in
list order; when the provider is not configured, no resolution
notification is dispatched at all. -/
theorem resolve_notifies_primary_only (env : Env) (now : Nat) (db : DB)
    (aid : Nat) (a : Alert) (cd : ContactDoc)
    (ha : db.alerts.find? (fun x => x.id == aid) = some a)
    (hc : db.contactDocs.find? (fun d => d.userId == a.userId) = some cd)
    (hne : cd.contacts ≠ []) :
    (env.isTwilioConfigured = true →
       (resolveHandler env now db aid).sends
         = (cd.contacts.filter (fun c => c.isPrimary)).map
             (fun c => (c.phone,
               composeResolutionMessage a.trackId (env.toLocaleString now)))) ∧
    (env.isTwilioConfigured = false →
       (resolveHandler env now db aid).sends = []) := by
  have hlen : 0 < cd.contacts.length := List.length_pos.mpr hne
  constructor <;> intro hcfg <;> simp [resolveHandler, ha, hcfg, hc, hlen]

/-- Witness for the amended claim C1: in the configured environment,
resolving the Alert of owner u1 sends exactly one resolution message, to
Ann. -/
theorem resolve_notifies_primary_only_witness :
    (resolveHandler envCfg 5 db0 1).sends
      = [("9876543210", composeResolutionMessage "EMERGENCY-RS-I" "T")] := by
  rw [(resolve_notifies_primary_only envCfg 5 db0 1 alert1 cdocU1 rfl rfl
      (by decide)).1 rfl]
  rfl

/-- Claim C2, code bug: the claim (with the spec) says the SOS trigger
fails with 400 exactly when ownerId or the coordinates are missing, and
succeeds with 200 whenever they are present, the contact list is
non-empty, the optional fields may be absent, and a coordinate may be 0.
The code instead (a) rejects latitude 0 as if it were missing, because the
JavaScript check uses number falsiness, and (b) crashes with a 500 on an
absent alertType, because alertType.toUpperCase() is evaluated before the
default is applied. -/
theorem sos_zero_lat_and_missing_alertType_mishandled :
    (sosHandler envSim 5 [] db0
      { reqOk with location := some { lat := some 0, lng := some 77 } })
      = ⟨.badRequest "Invalid request. userId and location required.", db0, []⟩ ∧
    (sosHandler envSim 5 [] db0 { reqOk with alertType := none })
      = ⟨.serverError "Failed to send emergency alert", db0, []⟩ :=
  ⟨rfl, rfl⟩

/-- Claim C3, counterexample: the claim asserts every 10-digit stripped
number is prefixed with the country code 91, including numbers whose
first two digits are 9 and 1.  The code skips the country code whenever
the stripped number already starts with "91": the 10-digit number
9123456780 is handed to the provider as whatsapp:+9123456780, without the
country code. -/
theorem send_ten_digit_91_start_not_prefixed :
    sendWhatsAppMessage envCfg 0 "9123456780" "m"
      = { status := "sent", sid := some "whatsapp:+9123456780", error := none } ∧
    formatWhatsAppNumber "9123456780" = "whatsapp:+9123456780" ∧
    ("whatsapp:+9123456780" : String) ≠ "whatsapp:+919123456780" :=
  ⟨rfl, rfl, by decide⟩

/-- Claim C3, amended: the recipient is stripped to its digits, and the
country code 91 is prepended exactly when the stripped result is 10
digits long and does not already start with 91; a stripped result that
starts with 91, or whose length is not 10, is passed through unchanged. -/
theorem formatNumber_country_code_rule (phone : String) :
    (jsStartsWith (stripNonDigits phone) "91" = false →
       (stripNonDigits phone).length = 10 →
       formatWhatsAppNumber phone
         = "whatsapp:+" ++ ("91" ++ stripNonDigits phone)) ∧
    (jsStartsWith (stripNonDigits phone) "91" = true →
       formatWhatsAppNumber phone = "whatsapp:+" ++ stripNonDigits phone) ∧
    ((stripNonDigits phone).length ≠ 10 →
       formatWhatsAppNumber phone = "whatsapp:+" ++ stripNonDigits phone) := by
  refine ⟨fun h1 h2 => ?_, fun h1 => ?_, fun h1 => ?_⟩
  · simp [formatWhatsAppNumber, h1, h2]
  · simp [formatWhatsAppNumber, h1]
  · simp [formatWhatsAppNumber, h1]

/-- Witness for the amended claim C3: a bare 10-digit number not starting
with 91 gets the country code; a number that strips to 919876543210 is
passed through unchanged. -/
theorem formatNumber_country_code_rule_witness :
    formatWhatsAppNumber "98765 43210"
      = "whatsapp:+" ++ ("91" ++ stripNonDigits "98765 43210") ∧
    formatWhatsAppNumber "+91 98765-43210"
      = "whatsapp:+" ++ stripNonDigits "+91 98765-43210" :=
  ⟨(formatNumber_country_code_rule "98765 43210").1 rfl rfl,
   (formatNumber_country_code_rule "+91 98765-43210").2.1 rfl⟩

/-- Claim C4, counterexample: the claim asserts resolvedAt is stamped
exactly once, so a second resolve keeps the first resolution time.  The
update is unconditional: resolving the same Alert at time 5 and again at
time 9 leaves resolvedAt = 9, not the first resolution time 5. -/
theorem resolve_twice_overwrites_time :
    (resolveHandler envSim 5 db0 1).response
      = .ok { alert1 with status := .resolved, resolvedAt := some 5 } ∧
    (resolveHandler envSim 9 (resolveHandler envSim 5 db0 1).db 1).response
      = .ok { alert1 with status := .resolved, resolvedAt := some 9 } ∧
    (some 9 : Option Nat) ≠ some 5 :=
  ⟨rfl, rfl, by decide⟩

/-- Claim C4, amended: status does transition one way to resolved and is
never unset, but resolvedAt is last-write: resolving an already-resolved
Alert leaves status = resolved and sets resolvedAt to the time of the
most recent resolution. -/
theorem resolve_twice_last_write (env1 env2 : Env) (t1 t2 : Nat) (db : DB)
    (aid : Nat) (a : Alert)
    (h : db.alerts.find? (fun x => x.id == aid) = some a) :
    (resolveHandler env2 t2 (resolveHandler env1 t1 db aid).db aid).response
      = .ok { a with status := .resolved, resolvedAt := some t2 } ∧
    (resolveHandler env2 t2 (resolveHandler env1 t1 db aid).db aid).db.alerts.find?
        (fun x => x.id == aid)
      = some { a with status := .resolved, resolvedAt := some t2 } := by
  have key : ∀ (env : Env) (t : Nat) (l : DB) (b : Alert),
      l.alerts.find? (fun x => x.id == aid) = some b →
      (resolveHandler env t l aid).response
          = .ok { b with status := .resolved, resolvedAt := some t } ∧
        (resolveHandler env t l aid).db.alerts
          = l.alerts.map (fun x => if x.id == aid
              then { x with status := .resolved, resolvedAt := some t } else x) := by
    intro env t l b hb
    constructor
    · simp [resolveHandler, hb]
    · simp [resolveHandler, hb]
  have h1 : (resolveHandler env1 t1 db aid).db.alerts.find? (fun x => x.id == aid)
      = some { a with status := .resolved, resolvedAt := some t1 } := by
    rw [(key env1 t1 db a h).2]
    exact find?_map_resolve db.alerts aid t1 a h
  constructor
  · exact (key env2 t2 _ _ h1).1
  · rw [(key env2 t2 _ _ h1).2]
    exact find?_map_resolve _ aid t2
      { a with status := .resolved, resolvedAt := some t1 } h1

/-- Witness for the amended claim C4: the double resolve of the concrete
Alert at times 5 then 9 reports resolvedAt = 9. -/
theorem resolve_twice_last_write_witness :
    (resolveHandler envSim 9 (resolveHandler envSim 5 db0 1).db 1).response
      = .ok { alert1 with status := .resolved, resolvedAt := some 9 } :=
  (resolve_twice_last_write envSim envSim 5 9 db0 1 alert1 rfl).1

/-- Claim C5: dispatching to a contact list of size K produces exactly K
delivery records, in list order, each with a status among sent, simulated
and failed; sent and simulated outcomes are the ones counted by
sentCount, the rest by failedCount, and the two counters sum to K. -/
theorem dispatch_ledger_complete (env : Env) (now : Nat) (msg : String)
    (contacts : List Contact) :
    (dispatchLoop env now msg contacts).records.length = contacts.length ∧
    (dispatchLoop env now msg contacts).records.map (fun e => (e.name, e.phone))
      = contacts.map (fun c => (c.name, c.phone)) ∧
    (dispatchLoop env now msg contacts).records.all
      (fun e => e.deliveryStatus == "sent" || e.deliveryStatus == "simulated"
        || e.deliveryStatus == "failed") = true ∧
    (dispatchLoop env now msg contacts).sentCount
      = ((dispatchLoop env now msg contacts).records.filter
          (fun e => e.deliveryStatus == "sent"
            || e.deliveryStatus == "simulated")).length ∧
    (dispatchLoop env now msg contacts).failedCount
      = ((dispatchLoop env now msg contacts).records.filter
          (fun e => !(e.deliveryStatus == "sent"
            || e.deliveryStatus == "simulated"))).length ∧
    (dispatchLoop env now msg contacts).sentCount
      + (dispatchLoop env now msg contacts).failedCount = contacts.length :=
  ⟨dispatchLoop_records_length env now msg contacts,
   dispatchLoop_records_order env now msg contacts,
   dispatchLoop_records_status env now msg contacts,
   dispatchLoop_sentCount env now msg contacts,
   dispatchLoop_failedCount env now msg contacts,
   dispatchLoop_counts_total env now msg contacts⟩

/-- Claim C6: a provider failure is converted into a failed outcome at
the channel boundary instead of escaping as an exception, and the
dispatch loop reaches every contact: whatever the provider does, there is
one delivery record and one attempted send per contact, in order. -/
theorem send_failure_isolated (env : Env) (now : Nat) (msg : String)
    (contacts : List Contact) (recipient err : String) :
    ((env.isTwilioConfigured = true ∧
        env.provider (formatWhatsAppNumber recipient) msg = .failure err) →
      sendWhatsAppMessage env now recipient msg
        = { status := "failed", sid := none, error := some err }) ∧
    (dispatchLoop env now msg contacts).records.length = contacts.length ∧
    (dispatchLoop env now msg contacts).calls.map Prod.fst
      = contacts.map (fun c => c.phone) := by
  refine ⟨fun h => ?_, dispatchLoop_records_length env now msg contacts,
    dispatchLoop_calls env now msg contacts⟩
  simp [sendWhatsAppMessage, h.1, h.2]

/-- Witness for claim C6: with a provider that always throws, the send
returns a failed outcome and the loop still records both contacts. -/
theorem send_failure_isolated_witness :
    sendWhatsAppMessage envFail 0 "9876543210" "m"
      = { status := "failed", sid := none, error := some "boom" } ∧
    (dispatchLoop envFail 0 "m" [ann, bob]).records.length = 2 :=
  ⟨(send_failure_isolated envFail 0 "m" [ann, bob] "9876543210" "boom").1
      ⟨rfl, rfl⟩,
   (send_failure_isolated envFail 0 "m" [ann, bob] "9876543210" "boom").2.1⟩

/-- Claim C7: a validated SOS request whose owner has no contact document,
or a contact document with an empty contacts array, is rejected with the
no-contacts 400 response, leaves the store untouched and performs zero
sends. -/
theorem sos_no_contacts_rejected (env : Env) (now : Nat)
    (rand : List (Fin 36)) (db : DB) (req : SosRequest) (uid : String)
    (loc : SosLocation) (lat lng : Int)
    (hu : req.userId = some uid) (hu0 : uid ≠ "")
    (hl : req.location = some loc)
    (hlat : loc.lat = some lat) (hlat0 : lat ≠ 0)
    (hlng : loc.lng = some lng) (hlng0 : lng ≠ 0)
    (hcd : db.contactDocs.find? (fun d => d.userId == uid) = none ∨
           ∃ cd, db.contactDocs.find? (fun d => d.userId == uid) = some cd ∧
             cd.contacts = []) :
    sosHandler env now rand db req
      = ⟨.badRequest "No emergency contacts found. Please add contacts first.",
         db, []⟩ := by
  have b1 : (uid == "") = false := by simp [hu0]
  have b2 : (lat == 0) = false := by simp [hlat0]
  have b3 : (lng == 0) = false := by simp [hlng0]
  rcases hcd with hnone | ⟨cd, hsome, hnil⟩
  · simp [sosHandler, hu, hl, hlat, hlng, b1, b2, b3, hnone]
  · simp [sosHandler, hu, hl, hlat, hlng, b1, b2, b3, hsome, hnil]

/-- Witness for claim C7: owner u2 has a contact document with an empty
contacts array, and the SOS trigger is rejected with zero sends. -/
theorem sos_no_contacts_rejected_witness :
    sosHandler envSim 0 [] dbEmpty
      { userId := some "u2", location := some { lat := some 1, lng := some 1 },
        message := none, alertType := some "sos", userName := none }
      = ⟨.badRequest "No emergency contacts found. Please add contacts first.",
         dbEmpty, []⟩ :=
  sos_no_contacts_rejected envSim 0 [] dbEmpty _ "u2"
    { lat := some 1, lng := some 1 } 1 1 rfl (by decide) rfl rfl (by decide)
    rfl (by decide)
    (Or.inr ⟨{ userId := "u2", contacts := [], createdAt := 0, updatedAt := 0 },
      rfl, rfl⟩)

/-- Claim C8, counterexample: the claim asserts that a trackingCode
collision triggers exactly one internal regeneration-and-retry, with only
a repeated collision surfacing as a fatal error.  The code has no retry:
a single collision (here the generated code EMERGENCY-RS-I already exists
in the store) immediately surfaces as a 500, and the store is left
unchanged. -/
theorem sos_single_collision_fatal :
    generateTrackId 1000 [(18 : Fin 36)] = alert1.trackId ∧
    (sosHandler envSim 1000 [(18 : Fin 36)] db0 reqOk).response
      = .serverError "Failed to send emergency alert" ∧
    (sosHandler envSim 1000 [(18 : Fin 36)] db0 reqOk).db = db0 :=
  ⟨rfl, rfl, rfl⟩

/-- Claim C8, amended: persisting a new Alert whose trackingCode already
exists fails on the unique index and is surfaced as a fatal 500 with no
retry of any kind, and the store — in particular the existing Alert — is
left unchanged (never silently overwritten). -/
theorem sos_collision_fatal_preserves_store (env : Env) (now : Nat)
    (rand : List (Fin 36)) (db : DB) (req : SosRequest) (uid : String)
    (loc : SosLocation) (lat lng : Int) (cd : ContactDoc) (atype : String)
    (hu : req.userId = some uid) (hu0 : uid ≠ "")
    (hl : req.location = some loc)
    (hlat : loc.lat = some lat) (hlat0 : lat ≠ 0)
    (hlng : loc.lng = some lng) (hlng0 : lng ≠ 0)
    (hcd : db.contactDocs.find? (fun d => d.userId == uid) = some cd)
    (hne : cd.contacts.length ≠ 0)
    (hat : req.alertType = some atype)
    (hcol : db.alerts.any
        (fun x => x.trackId == generateTrackId now rand) = true) :
    (sosHandler env now rand db req).response
      = .serverError "Failed to send emergency alert" ∧
    (sosHandler env now rand db req).db = db := by
  have b1 : (uid == "") = false := by simp [hu0]
  have b2 : (lat == 0) = false := by simp [hlat0]
  have b3 : (lng == 0) = false := by simp [hlng0]
  have b4 : (cd.contacts.length == 0) = false := by simp [hne]
  constructor <;>
    simp [sosHandler, hu, hl, hlat, hlng, b1, b2, b3, hcd, b4, hat,
      saveAlert, hcol]

/-- Witness for the amended claim C8: the concrete single collision on
EMERGENCY-RS-I yields the 500 response and leaves the store unchanged. -/
theorem sos_collision_fatal_preserves_store_witness :
    (sosHandler envSim 1000 [(18 : Fin 36)] db0 reqOk).response
      = .serverError "Failed to send emergency alert" ∧
    (sosHandler envSim 1000 [(18 : Fin 36)] db0 reqOk).db = db0 :=
  sos_collision_fatal_preserves_store envSim 1000 [(18 : Fin 36)] db0 reqOk
    "u1" { lat := some 12, lng := some 77 } 12 77 cdocU1 "sos"
    rfl (by decide) rfl rfl (by decide) rfl (by decide) rfl (by decide) rfl rfl

/-- Claim C9, counterexample: the claim asserts the random suffix always
has at least five characters.  When Math.random() returns 0.5 its base-36
rendering is "0.i", whose substring(2, 7) is the single character "i":
the generated code EMERGENCY-RS-I has a one-character suffix and does not
match the pattern with a five-character suffix. -/
theorem trackId_pattern_violated :
    generateTrackId 1000 [(18 : Fin 36)] = "EMERGENCY-RS-I" ∧
    matchesTrackPattern (generateTrackId 1000 [(18 : Fin 36)]) = false :=
  ⟨rfl, rfl⟩

/-- Claim C9, amended: every generated tracking code is the fixed piece
EMERGENCY, a dash, the nonempty uppercase base-36 timestamp, a dash, and
an uppercase base-36 suffix of at most five characters (exactly
min 5 k characters when the random fractional expansion has k digits). -/
theorem trackId_structure (now : Nat) (rand : List (Fin 36)) :
    ∃ t r : String,
      generateTrackId now rand = "EMERGENCY" ++ "-" ++ t ++ "-" ++ r ∧
      0 < t.length ∧
      t.data.all isBase36Upper = true ∧
      r.length = min 5 rand.length ∧
      r.data.all isBase36Upper = true := by
  refine ⟨String.mk (toBase36 now),
    String.mk ((rand.take 5).map (fun d => base36Char d.val)),
    by rfl, ?_, ?_, ?_, ?_⟩
  · show 0 < (toBase36 now).length
    rw [toBase36, List.length_reverse]
    exact List.length_pos.mpr (toBase36Rev_ne_nil now)
  · show (toBase36 now).all isBase36Upper = true
    rw [toBase36, List.all_eq_true]
    intro c hc
    rw [List.mem_reverse] at hc
    exact List.all_eq_true.mp (toBase36Rev_valid now) c hc
  · show ((rand.take 5).map (fun d => base36Char d.val)).length
      = min 5 rand.length
    simp [List.length_take]
  · show ((rand.take 5).map (fun d => base36Char d.val)).all isBase36Upper
      = true
    rw [List.all_eq_true]
    intro c hc
    rw [List.mem_map] at hc
    obtain ⟨d, _, rfl⟩ := hc
    exact base36Char_valid d

/-- Claim C10: because every stored Alert carries one of exactly the two
enum statuses, the per-owner stats satisfy
totalAlerts = activeAlerts + resolvedAlerts. -/
theorem stats_total_partition (db : DB) (uid : String) :
    (statsHandler db uid).totalAlerts
      = (statsHandler db uid).activeAlerts
        + (statsHandler db uid).resolvedAlerts := by
  simp only [statsHandler]
  exact filter_status_partition uid db.alerts

end SosServer
